import Mathlib

/-!
Verification of the year-over-year Dynamic World land-cover comparison
backend (`gee_functions.py`, `main.py`).

Shallow embedding conventions:
* Python floats are modelled as rationals (`ℚ`); `float(x)` applied to a
  request value is modelled by `BVal`: a value is either numeric (coercion
  succeeds, with that rational value) or non-numeric (coercion raises).
* A location string is represented by the list of its comma-separated,
  stripped tokens, each a `BVal`; `none` stands for a missing/empty string
  (both are falsy in Python).
* Earth Engine image expressions are built lazily client-side; we embed the
  expression tree as `EEImg` and the network-touching operations
  (`getThumbURL`, `getMapId`, the OpenAI chat completion) as `RemoteCall`
  descriptors.  A returned URL is identified with the request that produced
  it, since the remote service is treated as a deterministic collaborator.
* Functions that can raise a Python exception return `Except String`.
* Per-pixel raster semantics: the pixel domain is the AOI (clipping to the
  AOI is the identity on in-AOI pixels), and the per-dataset observations at
  a pixel for a calendar-year window are supplied by an environment
  `Obs : String → Int → Nat → List Int` (dataset id → year → pixel →
  observed label values).
-/

/-- Supported years: `YEARS = [2020, 2021, 2022, 2023, 2024]` from `gee_functions.py`. -/
def YEARS : List Int := [2020, 2021, 2022, 2023, 2024]

/-- Dynamic World palette from `gee_functions.py` (9 class colors, classes 0..8). -/
def CLASS_PALETTE : List String :=
  ["419bdf", "397d49", "88b053", "7a87c6", "e49635",
   "dfc35a", "c4281b", "a59b8f", "b39fe1"]

/-- Change-mask color `CHANGE_COLOR = "ff00ff"` (magenta). -/
def CHANGE_COLOR : String := "ff00ff"

/-- Default Abu Dhabi AOI rectangle bounds `[minLon, minLat, maxLon, maxLat]`. -/
def DEFAULT_RECT_BOUNDS : List ℚ := [54.16, 24.29, 54.74, 24.61]

/-- A request-supplied scalar as seen by `float(x)`: either a numeric value
(coercion succeeds and yields `q`) or a non-numeric value (coercion raises). -/
inductive BVal where
  | num (q : ℚ)
  | nonNum
deriving DecidableEq, Repr

/-- Python `float` applied to one request value. -/
def float_of_bval : BVal → Option ℚ
  | .num q => some q
  | .nonNum => none

/-- The coercion `[float(x) for x in l]`: all-or-nothing, `none` when any element raises. -/
def coerce_floats (l : List BVal) : Option (List ℚ) :=
  l.mapM float_of_bval

/-- Model of `ee.Geometry.Rectangle(coords, None, geodesic)`: a client-side rectangle
geometry (no network call). -/
structure EeRectangle where
  coords : List ℚ
  geodesic : Bool
deriving DecidableEq, Repr

/-- Python truthiness of the optional `bounds` / `roi_bounds` argument:
`None` and the empty list are falsy. -/
def py_truthy : Option (List BVal) → Bool
  | none => false
  | some l => !l.isEmpty

/-- Model of `get_aoi(bounds=None)` from `gee_functions.py`.

```python
if bounds:
    try:
        b = [float(x) for x in bounds]
        if len(b) != 4:
            raise ValueError("bounds must be list-like of 4 floats")
        return ee.Geometry.Rectangle(b, None, False)
    except Exception as e:
        raise ValueError(f"Invalid bounds provided: {e}")
return ee.Geometry.Rectangle(DEFAULT_RECT_BOUNDS, None, False)
```

The inner exception text of a failed `float(x)` is abbreviated. -/
def get_aoi (bounds : Option (List BVal)) : Except String EeRectangle :=
  match bounds with
  | some bs =>
    if bs.isEmpty then .ok ⟨DEFAULT_RECT_BOUNDS, false⟩
    else
      match coerce_floats bs with
      | none => .error "Invalid bounds provided: could not convert string to float"
      | some b =>
        if b.length ≠ 4 then
          .error "Invalid bounds provided: bounds must be list-like of 4 floats"
        else .ok ⟨b, false⟩
  | none => .ok ⟨DEFAULT_RECT_BOUNDS, false⟩

/-- The location-string parsing shared by `compare_abudhabi_dw` (main.py
lines 106-114) and `chat` (main.py lines 137-144):

```python
roi_bounds = None
if req.location:
    try:
        parts = [p.strip() for p in req.location.split(",")]
        if len(parts) == 4:
            roi_bounds = [float(x) for x in parts]
    except Exception:
        roi_bounds = None
```

`location` is the token list of the split string (`none` = absent/empty). -/
def parse_roi_bounds (location : Option (List BVal)) : Option (List BVal) :=
  match location with
  | none => none
  | some parts =>
    if parts.length = 4 then
      (coerce_floats parts).map (fun qs => qs.map BVal.num)
    else none

/-- Earth Engine image expressions actually built by `gee_functions.py`,
as a lazy client-side expression tree. -/
inductive EEImg where
  /-- Models `ee.ImageCollection(dataset).filterBounds(roi).filterDate(Jan 1 year,
  Jan 1 year+1).select(band).mode()`. -/
  | ic_mode (dataset : String) (band : String) (year : Int) (roi : EeRectangle)
  /-- Models `ee.ImageCollection(dataset).filterBounds(roi).filterDate(Jan 1 year,
  Jan 1 year+1).filter(ee.Filter.lt("CLOUDY_PIXEL_PERCENTAGE", cloudMax)).median()`. -/
  | ic_median_cloudlt (dataset : String) (cloudMax : Int) (year : Int) (roi : EeRectangle)
  | clip (i : EEImg) (roi : EeRectangle)
  | unmask (i : EEImg) (v : Int)
  /-- Models `.set("system:time_start", start.millis())` for the Jan 1 of `year`. -/
  | set_time_start (i : EEImg) (year : Int)
  | neq (a b : EEImg)
  | selfMask (i : EEImg)
  /-- Models `.visualize(bands=bands, min=lo, max=hi)`. -/
  | visualizeBands (i : EEImg) (bands : List String) (lo hi : Int)
  /-- Models `.visualize(min=?, max=?, palette=palette)`. -/
  | visualizePal (i : EEImg) (lo hi : Option Int) (palette : List String)
deriving DecidableEq, Repr

/-- Model of `yearly_dw_label(year, roi)`: Dynamic World label image for one year. -/
def yearly_dw_label (year : Int) (roi : EeRectangle) : EEImg :=
  .set_time_start (.unmask (.clip (.ic_mode "GOOGLE/DYNAMICWORLD/V1" "label" year roi) roi) 0) year

/-- Model of `yearly_s2_rgb(year, roi)`: Sentinel-2 RGB visual image for one year. -/
def yearly_s2_rgb (year : Int) (roi : EeRectangle) : EEImg :=
  .visualizeBands (.clip (.ic_median_cloudlt "COPERNICUS/S2_HARMONIZED" 30 year roi) roi)
    ["B4", "B3", "B2"] 0 3000

/-- Model of `make_change_image(year_a, year_b, roi)`: raw change mask before visualize:
`lbl_a.neq(lbl_b).selfMask().clip(roi)`. -/
def make_change_image (year_a year_b : Int) (roi : EeRectangle) : EEImg :=
  .clip (.selfMask (.neq (yearly_dw_label year_a roi) (yearly_dw_label year_b roi))) roi

/-- Per-dataset, per-year, per-pixel observed label values. -/
def Obs : Type := String → Int → Nat → List Int

/-- Number of occurrences of `v` in `l`. -/
def countOf (l : List Int) (v : Int) : Nat := l.count v

/-- Per-pixel mode reducer: most frequent value, `none` on an empty
observation list (the pixel is masked).  Earth Engine does not document its
tie-breaking; we fix ties to the smallest value, which no theorem below
depends on. -/
def listMode (l : List Int) : Option Int :=
  l.foldl (fun acc v =>
    match acc with
    | none => some v
    | some m =>
      if countOf l v > countOf l m then some v
      else if countOf l v = countOf l m ∧ v < m then some v
      else some m) none

/-- Per-pixel evaluation of the categorical image expressions, `none` meaning
the pixel is masked.  Only the constructors reachable from `yearly_dw_label`
and `make_change_image` carry pixel semantics; the color-visualized images
(`ic_median_cloudlt`, `visualizeBands`, `visualizePal`) produce multi-band
display imagery that no claim inspects per pixel, so they evaluate to a
masked pixel here. -/
def evalImg (env : Obs) : EEImg → Nat → Option Int
  | .ic_mode dataset _band year _roi, p => listMode (env dataset year p)
  | .ic_median_cloudlt _ _ _ _, _ => none
  | .clip i _, p => evalImg env i p
  | .unmask i v, p => some ((evalImg env i p).getD v)
  | .set_time_start i _, p => evalImg env i p
  | .neq a b, p =>
    match evalImg env a p, evalImg env b p with
    | some x, some y => some (if x = y then 0 else 1)
    | _, _ => none
  | .selfMask i, p =>
    match evalImg env i p with
    | some x => if x = 0 then none else some x
    | none => none
  | .visualizeBands _ _ _ _, _ => none
  | .visualizePal _ _ _ _, _ => none

/-- Keyword arguments of an `.visualize(...)` call as passed through
`get_tile_template` / the thumbnail rendering in `compare_dw_abudhabi_years`. -/
structure VisParams where
  bands : Option (List String)
  lo : Option Int
  hi : Option Int
  palette : Option (List String)
deriving DecidableEq, Repr

/-- Visualization params `{"min": 0, "max": 8, "palette": CLASS_PALETTE}`. -/
def dw_vis : VisParams := ⟨none, some 0, some 8, some CLASS_PALETTE⟩

/-- Visualization params `{"palette": [CHANGE_COLOR]}`. -/
def change_vis_params : VisParams := ⟨none, none, none, some [CHANGE_COLOR]⟩

/-- Apply a `VisParams` keyword set with `.visualize(**vis_params)`. -/
def applyVis (i : EEImg) (vp : VisParams) : EEImg :=
  match vp.bands with
  | some bs => .visualizeBands i bs (vp.lo.getD 0) (vp.hi.getD 0)
  | none => .visualizePal i vp.lo vp.hi (vp.palette.getD [])

/-- The network-touching operations: Earth Engine thumbnail rendering,
Earth Engine tile-session creation, and the OpenAI chat completion.  A URL
returned by the remote service is identified with its generating request. -/
inductive RemoteCall where
  /-- Models `vis_image.getThumbURL({"region": roi, "dimensions": d, "format": fmt})`. -/
  | getThumbURL (img : EEImg) (region : EeRectangle) (dimensions : Nat) (format : String)
  /-- Models `image.visualize(**vis).getMapId({})["tile_fetcher"].url_format`. -/
  | getMapId (img : EEImg)
  /-- Models `client.chat.completions.create(...)` with the fixed system prompt and
  tool schema, on this user message. -/
  | llm (user_message : String)
deriving DecidableEq, Repr

/-- Model of `get_tile_template(image, vis_params, roi)`: visualize, then `getMapId`;
the `roi` parameter is accepted but unused by the body, as in the source. -/
def get_tile_template (image : EEImg) (vis_params : VisParams)
    (_roi : Option EeRectangle) : RemoteCall :=
  .getMapId (applyVis image vis_params)

/-- The result dict of `compare_dw_abudhabi_years`: the two normalized years
and exactly eight artifact references (five thumbnail URLs, three tile URL
templates). -/
structure CompareResult where
  year_a : Int
  year_b : Int
  dw_a_url : RemoteCall
  dw_b_url : RemoteCall
  s2_a_url : RemoteCall
  s2_b_url : RemoteCall
  change_url : RemoteCall
  dw_a_tiles : RemoteCall
  dw_b_tiles : RemoteCall
  change_tiles : RemoteCall
deriving DecidableEq, Repr

/-- The eight artifact references carried by a result, in the order the
source builds them. -/
def artifacts (r : CompareResult) : List RemoteCall :=
  [r.dw_a_url, r.dw_b_url, r.s2_a_url, r.s2_b_url, r.change_url,
   r.dw_a_tiles, r.dw_b_tiles, r.change_tiles]

/-- The message `f"Years must be between {YEARS[0]} and {YEARS[-1]}."`. -/
def years_range_error : String :=
  let lo := YEARS.headD 0
  let hi := YEARS.getLastD 0
  s!"Years must be between {lo} and {hi}."

/-- The order-normalizing swap: `if year_a > year_b: year_a, year_b = year_b, year_a`. -/
def normalize_years (year_a year_b : Int) : Int × Int :=
  if year_a > year_b then (year_b, year_a) else (year_a, year_b)

/-- Model of `compare_dw_abudhabi_years(year_a, year_b, roi_bounds=None)` from
`gee_functions.py`: coerce years to int (inputs are already integers here),
swap so `year_a ≤ year_b`, validate membership in `YEARS`, resolve the ROI
(`get_aoi(roi_bounds)` when `roi_bounds` is truthy, else the default), build
the five images, visualize, and issue five `getThumbURL` and three `getMapId`
remote calls.  Returns the ordered list of remote calls actually issued
paired with the result (or the raised `ValueError`'s message). -/
def compare_dw_abudhabi_years (year_a0 year_b0 : Int)
    (roi_bounds : Option (List BVal)) : List RemoteCall × Except String CompareResult :=
  let p := normalize_years year_a0 year_b0
  let year_a := p.1
  let year_b := p.2
  if year_a ∉ YEARS ∨ year_b ∉ YEARS then
    ([], .error years_range_error)
  else
    match (if py_truthy roi_bounds then get_aoi roi_bounds else get_aoi none) with
    | .error e => ([], .error e)
    | .ok roi =>
      let dw_a_raw := yearly_dw_label year_a roi
      let dw_b_raw := yearly_dw_label year_b roi
      let s2_a_raw := yearly_s2_rgb year_a roi
      let s2_b_raw := yearly_s2_rgb year_b roi
      let change_raw := make_change_image year_a year_b roi
      let dw_a_url := RemoteCall.getThumbURL (applyVis dw_a_raw dw_vis) roi 768 "png"
      let dw_b_url := RemoteCall.getThumbURL (applyVis dw_b_raw dw_vis) roi 768 "png"
      let s2_a_url := RemoteCall.getThumbURL s2_a_raw roi 768 "png"
      let s2_b_url := RemoteCall.getThumbURL s2_b_raw roi 768 "png"
      let change_url := RemoteCall.getThumbURL (applyVis change_raw change_vis_params) roi 768 "png"
      let dw_a_tiles := get_tile_template dw_a_raw dw_vis (some roi)
      let dw_b_tiles := get_tile_template dw_b_raw dw_vis (some roi)
      let change_tiles := get_tile_template change_raw change_vis_params (some roi)
      ([dw_a_url, dw_b_url, s2_a_url, s2_b_url, change_url,
        dw_a_tiles, dw_b_tiles, change_tiles],
       .ok ⟨year_a, year_b, dw_a_url, dw_b_url, s2_a_url, s2_b_url, change_url,
            dw_a_tiles, dw_b_tiles, change_tiles⟩)

/-- The `ChatRequest` pydantic model of `main.py`; `location` is represented
by its comma-split token list as in `parse_roi_bounds`. -/
structure ChatRequest where
  message : Option String
  location : Option (List BVal)
  year_a : Option Int
  year_b : Option Int
  analysis_function : Option String

/-- The JSON body returned by the `/chat` endpoint: a message (possibly
null) and optional structured comparison data. -/
structure ChatResponse where
  message : Option String
  data : Option CompareResult
deriving DecidableEq, Repr

/-- The JSON-decoded arguments of a model tool call for
`compare_dw_abudhabi_years` (`year_a`, `year_b` required, `roi_bounds`
optional). -/
structure ToolArgs where
  year_a : Int
  year_b : Int
  roi_bounds : Option (List BVal)

/-- One entry of `message.tool_calls`. -/
structure ToolCall where
  name : String
  arguments : ToolArgs

/-- The assistant message returned by the chat completion. -/
structure LLMMessage where
  tool_calls : List ToolCall
  content : Option String

/-- The configured OpenAI client, abstracted as a deterministic function
from the user message to the completion's assistant message (system prompt,
model name and tool schema are fixed in the source); `none` models an absent
`OPENAI_API_KEY`. -/
def LLMClient : Type := Option (String → LLMMessage)

/-- The message `f"Here is the Dynamic World comparison for the requested area between
{data['year_a']} and {data['year_b']}."` -/
def compare_message (data : CompareResult) : String :=
  let ya := data.year_a
  let yb := data.year_b
  s!"Here is the Dynamic World comparison for the requested area between {ya} and {yb}."

/-- The fixed notice returned when no OpenAI client is configured. -/
def not_configured_message : String :=
  "OpenAI client is not configured on the server. Provide OPENAI_API_KEY to enable conversational responses."

/-- The fall-through branch of `/chat` (main.py lines 154-232): no years were
supplied, so forward `user_message` to OpenAI when configured, run the
comparison if the model makes a matching tool call, otherwise return the
model's text (or the fixed not-configured notice when `client` is `None`). -/
def chat_llm_path (user_message : String) (client : LLMClient) :
    List RemoteCall × Except String ChatResponse :=
  match client with
  | none => ([], .ok ⟨some not_configured_message, none⟩)
  | some complete =>
    let m := complete user_message
    match m.tool_calls with
    | tc :: _ =>
      if tc.name = "compare_dw_abudhabi_years" then
        let pr := compare_dw_abudhabi_years tc.arguments.year_a tc.arguments.year_b
          tc.arguments.roi_bounds
        (RemoteCall.llm user_message :: pr.1,
         pr.2.map fun data => ⟨some (compare_message data), some data⟩)
      else ([RemoteCall.llm user_message], .ok ⟨m.content, none⟩)
    | [] => ([RemoteCall.llm user_message], .ok ⟨m.content, none⟩)

/-- The `/chat` endpoint (main.py lines 127-232): when both `year_a` and
`year_b` are present, run `compare_dw_abudhabi_years` directly (parsing
`location` as a bbox) and return its payload; otherwise take the
language-model path on `req.message or ""`. -/
def chat (req : ChatRequest) (client : LLMClient) :
    List RemoteCall × Except String ChatResponse :=
  match req.year_a, req.year_b with
  | some ya, some yb =>
    let roi_bounds := parse_roi_bounds req.location
    let pr := compare_dw_abudhabi_years ya yb roi_bounds
    (pr.1, pr.2.map fun data => ⟨some (compare_message data), some data⟩)
  | _, _ => chat_llm_path (req.message.getD "") client

/-- Holds the value `true` when the trace contains a language-model call. -/
def contains_llm_call (tr : List RemoteCall) : Bool :=
  tr.any fun c =>
    match c with
    | .llm _ => true
    | _ => false

lemma normalize_years_eq_minmax (a b : Int) :
    normalize_years a b = (min a b, max a b) := by
  unfold normalize_years
  by_cases h : a > b <;> simp [h, Prod.ext_iff] <;> omega

lemma compare_trace_llm_free (a b : Int) (rb : Option (List BVal)) :
    contains_llm_call (compare_dw_abudhabi_years a b rb).1 = false := by
  simp only [compare_dw_abudhabi_years]
  split
  · rfl
  · split <;> rfl

/-- C10: passing an empty list as explicit bounds is treated like passing no
bounds at all: `get_aoi([])` returns the default Abu Dhabi AOI rectangle
(the empty list is falsy, so the fallback branch runs) rather than raising
an invalid-bounds error for having fewer than four values. -/
theorem get_aoi_empty_bounds_default :
    get_aoi (some []) = .ok ⟨DEFAULT_RECT_BOUNDS, false⟩ ∧
    get_aoi (some []) = get_aoi none :=
  ⟨rfl, rfl⟩

/-- C7: change detection is symmetric.  `make_change_image` computes
`lbl_a.neq(lbl_b).selfMask().clip(roi)`, and per-pixel inequality is
symmetric, so swapping the two years gives the identical change raster under
every observation environment. -/
theorem make_change_image_symmetric (env : Obs) (year_a year_b : Int)
    (roi : EeRectangle) :
    evalImg env (make_change_image year_a year_b roi) =
      evalImg env (make_change_image year_b year_a roi) := by
  funext p
  simp only [make_change_image, yearly_dw_label, evalImg]
  by_cases h :
      (listMode (env "GOOGLE/DYNAMICWORLD/V1" year_a p)).getD 0 =
        (listMode (env "GOOGLE/DYNAMICWORLD/V1" year_b p)).getD 0
  · simp [h]
  · have h' :
        ¬(listMode (env "GOOGLE/DYNAMICWORLD/V1" year_b p)).getD 0 =
          (listMode (env "GOOGLE/DYNAMICWORLD/V1" year_a p)).getD 0 :=
      fun e => h e.symm
    simp [h, h']

/-- C3, counterexample: the "no observation" fill value is `0` (from
`.unmask(0)`), which is land-cover class 0: a pixel with zero in-window
observations evaluates to the same value as a pixel genuinely observed as
class 0, and `0` lies inside the class range `0..CLASS_PALETTE.length - 1`.
So the fill value is defined, but it is not a sentinel distinct from the
land-cover classes. -/
theorem unmask_fill_value_is_class_zero :
    evalImg (fun _ _ _ => []) (yearly_dw_label 2020 ⟨DEFAULT_RECT_BOUNDS, false⟩) 0 = some 0 ∧
    evalImg (fun _ _ _ => [0]) (yearly_dw_label 2020 ⟨DEFAULT_RECT_BOUNDS, false⟩) 0 = some 0 ∧
    0 < CLASS_PALETTE.length :=
  ⟨rfl, rfl, by decide⟩

/-- C3, amended: every pixel with zero in-window observations is filled with
the fixed value `0` via `.unmask(0)` — defined, never missing — and a year
with zero observations everywhere yields a well-formed all-zero layer rather
than an error; but `0` coincides with land-cover class 0 instead of being a
sentinel distinct from the classes `0..N-1`. -/
theorem zero_observation_pixels_filled_with_zero (env : Obs) (year : Int)
    (roi : EeRectangle) (p : Nat)
    (h : env "GOOGLE/DYNAMICWORLD/V1" year p = []) :
    evalImg env (yearly_dw_label year roi) p = some 0 ∧
    evalImg (fun _ _ _ => ([] : List Int)) (yearly_dw_label year roi) =
      fun _ => some 0 := by
  constructor
  · simp [yearly_dw_label, evalImg, h, listMode]
  · funext q
    simp [yearly_dw_label, evalImg, listMode]

theorem zero_observation_pixels_filled_with_zero_witness :
    evalImg (fun _ _ _ => []) (yearly_dw_label 2021 ⟨DEFAULT_RECT_BOUNDS, false⟩) 5 = some 0 ∧
    evalImg (fun _ _ _ => ([] : List Int)) (yearly_dw_label 2021 ⟨DEFAULT_RECT_BOUNDS, false⟩) =
      fun _ => some 0 :=
  zero_observation_pixels_filled_with_zero (fun _ _ _ => []) 2021
    ⟨DEFAULT_RECT_BOUNDS, false⟩ 5 rfl

/-- C4, counterexample: the location `"24.47,54.37"` (two comma-separated
numbers, valid latitude first) is not range-disambiguated and expanded into
a ±0.05-degree box: the bbox parser only accepts exactly four parts, so this
location parses to `None` and resolution falls back to the default Abu Dhabi
AOI `[54.16, 24.29, 54.74, 24.61]`, which is not the claimed box centered at
lon=54.37, lat=24.47. -/
theorem two_number_location_uses_default_aoi :
    parse_roi_bounds (some [BVal.num 24.47, BVal.num 54.37]) = none ∧
    get_aoi (parse_roi_bounds (some [BVal.num 24.47, BVal.num 54.37])) =
      .ok ⟨[54.16, 24.29, 54.74, 24.61], false⟩ ∧
    (⟨[54.16, 24.29, 54.74, 24.61], false⟩ : EeRectangle) ≠
      ⟨[54.37 - 0.05, 24.47 - 0.05, 54.37 + 0.05, 24.47 + 0.05], false⟩ := by
  refine ⟨rfl, rfl, ?_⟩
  simp only [ne_eq, EeRectangle.mk.injEq, List.cons.injEq, and_true, not_and]
  intro h1
  norm_num at h1

/-- C4, amended: a location consisting of exactly two comma-separated
numbers is not recognized at all — only four-part locations parse to bounds,
so a two-number location yields `roi_bounds = None` and the resolver falls
back to the default Abu Dhabi AOI; no lat/lon range disambiguation and no
±0.05-degree box expansion exist in the code. -/
theorem two_number_location_not_recognized (toks : List BVal)
    (h : toks.length = 2) :
    parse_roi_bounds (some toks) = none ∧
    get_aoi (parse_roi_bounds (some toks)) = .ok ⟨DEFAULT_RECT_BOUNDS, false⟩ := by
  have h4 : ¬ toks.length = 4 := by omega
  exact ⟨by simp [parse_roi_bounds, h4], by simp [parse_roi_bounds, h4, get_aoi]⟩

theorem two_number_location_not_recognized_witness :
    ([BVal.num 24.47, BVal.num 54.37] : List BVal).length = 2 ∧
    (parse_roi_bounds (some [BVal.num 24.47, BVal.num 54.37]) = none ∧
     get_aoi (parse_roi_bounds (some [BVal.num 24.47, BVal.num 54.37])) =
       .ok ⟨DEFAULT_RECT_BOUNDS, false⟩) :=
  ⟨rfl, two_number_location_not_recognized [BVal.num 24.47, BVal.num 54.37] rfl⟩

/-- C5, counterexample: a malformed (non-empty, wrong-arity) `roi_bounds`
passed to `compare_dw_abudhabi_years` does not fall back to the default AOI:
`get_aoi` raises `ValueError("Invalid bounds provided: ...")` and the
orchestrator does not catch it, so the resolution error propagates to the
caller of `compare`. -/
theorem compare_propagates_invalid_bounds_error :
    compare_dw_abudhabi_years 2020 2021 (some [BVal.num 1]) =
      ([], .error "Invalid bounds provided: bounds must be list-like of 4 floats") :=
  rfl

lemma normalize_mem (a b : Int) (ha : a ∈ YEARS) (hb : b ∈ YEARS) :
    ¬((normalize_years a b).1 ∉ YEARS ∨ (normalize_years a b).2 ∉ YEARS) := by
  unfold normalize_years
  by_cases h : a > b <;> simp [h, ha, hb]

lemma compare_comm_raw (a b : Int) (rb : Option (List BVal)) :
    compare_dw_abudhabi_years a b rb = compare_dw_abudhabi_years b a rb := by
  have h : normalize_years a b = normalize_years b a := by
    unfold normalize_years
    by_cases h1 : a > b
    · rw [if_pos h1, if_neg (by omega)]
    · by_cases h2 : b > a
      · rw [if_neg h1, if_pos h2]
      · have : a = b := by omega
        subst this
        rfl
  simp only [compare_dw_abudhabi_years, h]

lemma compare_roi_error (a b : Int) (rb : Option (List BVal)) (e : String)
    (ha : a ∈ YEARS) (hb : b ∈ YEARS)
    (hroi : (if py_truthy rb then get_aoi rb else get_aoi none) = .error e) :
    compare_dw_abudhabi_years a b rb = ([], .error e) := by
  simp only [compare_dw_abudhabi_years]
  rw [if_neg (normalize_mem a b ha hb), hroi]

lemma compare_ok_characterization (a b : Int) (rb : Option (List BVal))
    (roi : EeRectangle) (ha : a ∈ YEARS) (hb : b ∈ YEARS) (hab : a ≤ b)
    (hroi : (if py_truthy rb then get_aoi rb else get_aoi none) = .ok roi) :
    compare_dw_abudhabi_years a b rb =
      ([RemoteCall.getThumbURL (applyVis (yearly_dw_label a roi) dw_vis) roi 768 "png",
        RemoteCall.getThumbURL (applyVis (yearly_dw_label b roi) dw_vis) roi 768 "png",
        RemoteCall.getThumbURL (yearly_s2_rgb a roi) roi 768 "png",
        RemoteCall.getThumbURL (yearly_s2_rgb b roi) roi 768 "png",
        RemoteCall.getThumbURL (applyVis (make_change_image a b roi) change_vis_params) roi 768 "png",
        get_tile_template (yearly_dw_label a roi) dw_vis (some roi),
        get_tile_template (yearly_dw_label b roi) dw_vis (some roi),
        get_tile_template (make_change_image a b roi) change_vis_params (some roi)],
       .ok ⟨a, b,
            RemoteCall.getThumbURL (applyVis (yearly_dw_label a roi) dw_vis) roi 768 "png",
            RemoteCall.getThumbURL (applyVis (yearly_dw_label b roi) dw_vis) roi 768 "png",
            RemoteCall.getThumbURL (yearly_s2_rgb a roi) roi 768 "png",
            RemoteCall.getThumbURL (yearly_s2_rgb b roi) roi 768 "png",
            RemoteCall.getThumbURL (applyVis (make_change_image a b roi) change_vis_params) roi 768 "png",
            get_tile_template (yearly_dw_label a roi) dw_vis (some roi),
            get_tile_template (yearly_dw_label b roi) dw_vis (some roi),
            get_tile_template (make_change_image a b roi) change_vis_params (some roi)⟩) := by
  have hn1 : (normalize_years a b).1 = a := by
    unfold normalize_years
    rw [if_neg (by omega)]
  have hn2 : (normalize_years a b).2 = b := by
    unfold normalize_years
    rw [if_neg (by omega)]
  simp only [compare_dw_abudhabi_years, hn1, hn2]
  rw [if_neg (by simp [ha, hb]), hroi]

/-- C5, amended: when `roi_bounds` is absent or empty (falsy), `compare`
falls back to the default Abu Dhabi AOI — and location-string parse failures
upstream produce exactly this falsy `None` — but a non-empty malformed
`roi_bounds` makes `get_aoi` raise, and that resolution error propagates to
the caller of `compare` (with no remote call attempted). -/
theorem compare_aoi_fallback_and_propagation (year_a year_b : Int)
    (bounds : Option (List BVal)) (bs : List BVal) (e : String)
    (ha : year_a ∈ YEARS) (hb : year_b ∈ YEARS)
    (hfalsy : py_truthy bounds = false)
    (herr : get_aoi (some bs) = .error e) :
    compare_dw_abudhabi_years year_a year_b bounds =
      compare_dw_abudhabi_years year_a year_b none ∧
    compare_dw_abudhabi_years year_a year_b (some bs) = ([], .error e) := by
  constructor
  · have h1 : (if py_truthy bounds then get_aoi bounds else get_aoi none) = get_aoi none := by
      rw [hfalsy]
      simp
    have h2 : (if py_truthy (none : Option (List BVal)) then get_aoi none else get_aoi none) =
        get_aoi none := by
      simp [py_truthy]
    simp only [compare_dw_abudhabi_years, h1, h2]
  · have hbs : bs.isEmpty = false := by
      cases bs with
      | nil => simp [get_aoi] at herr
      | cons x l => rfl
    exact compare_roi_error year_a year_b (some bs) e ha hb
      (by simp [py_truthy, hbs, herr])

theorem compare_aoi_fallback_and_propagation_witness :
    compare_dw_abudhabi_years 2020 2021 (some []) =
      compare_dw_abudhabi_years 2020 2021 none ∧
    compare_dw_abudhabi_years 2020 2021 (some [BVal.num 1]) =
      ([], .error "Invalid bounds provided: bounds must be list-like of 4 floats") :=
  compare_aoi_fallback_and_propagation 2020 2021 (some []) [BVal.num 1]
    "Invalid bounds provided: bounds must be list-like of 4 floats"
    (by decide) (by decide) rfl rfl

/-- C2: whenever at least one of the two (coerced, order-normalized) years
lies outside `YEARS = {2020..2024}`, `compare_dw_abudhabi_years` raises a
`ValueError` naming the valid range, with an empty remote-call trace: no
remote-service call is attempted before the error. -/
theorem compare_rejects_unsupported_years (year_a year_b : Int)
    (roi_bounds : Option (List BVal))
    (h : year_a ∉ YEARS ∨ year_b ∉ YEARS) :
    compare_dw_abudhabi_years year_a year_b roi_bounds =
      ([], .error "Years must be between 2020 and 2024.") := by
  have hmsg : years_range_error = "Years must be between 2020 and 2024." := rfl
  have hcond : (normalize_years year_a year_b).1 ∉ YEARS ∨
      (normalize_years year_a year_b).2 ∉ YEARS := by
    unfold normalize_years
    by_cases hgt : year_a > year_b <;> simp [hgt] <;> tauto
  simp only [compare_dw_abudhabi_years]
  rw [if_pos hcond, hmsg]

theorem compare_rejects_unsupported_years_witness :
    ((2019 : Int) ∉ YEARS ∨ (2020 : Int) ∉ YEARS) ∧
    compare_dw_abudhabi_years 2019 2020 none =
      ([], .error "Years must be between 2020 and 2024.") :=
  ⟨Or.inl (by decide),
   compare_rejects_unsupported_years 2019 2020 none (Or.inl (by decide))⟩

/-- C1: for supported years with `year_a > year_b` and any bounds,
`compare_dw_abudhabi_years` behaves identically with the years swapped (the
swap normalizes the pair before any further processing), and any returned
payload carries the smaller year as `year_a` and the larger as `year_b`. -/
theorem compare_order_normalization (year_a year_b : Int)
    (roi_bounds : Option (List BVal))
    (ha : year_a ∈ YEARS) (hb : year_b ∈ YEARS) (hgt : year_a > year_b) :
    compare_dw_abudhabi_years year_a year_b roi_bounds =
      compare_dw_abudhabi_years year_b year_a roi_bounds ∧
    (compare_dw_abudhabi_years year_a year_b roi_bounds).2.map
        (fun r => r.year_a) =
      (compare_dw_abudhabi_years year_a year_b roi_bounds).2.map
        (fun _ => year_b) ∧
    (compare_dw_abudhabi_years year_a year_b roi_bounds).2.map
        (fun r => r.year_b) =
      (compare_dw_abudhabi_years year_a year_b roi_bounds).2.map
        (fun _ => year_a) := by
  refine ⟨compare_comm_raw year_a year_b roi_bounds, ?_, ?_⟩ <;>
  · rcases hexpr : (if py_truthy roi_bounds then get_aoi roi_bounds else get_aoi none)
      with e | roi
    · rw [compare_roi_error year_a year_b roi_bounds e ha hb hexpr]
      rfl
    · rw [compare_comm_raw year_a year_b roi_bounds,
        compare_ok_characterization year_b year_a roi_bounds roi hb ha (by omega) hexpr]
      rfl

theorem compare_order_normalization_witness :
    compare_dw_abudhabi_years 2024 2020 none =
      compare_dw_abudhabi_years 2020 2024 none ∧
    (compare_dw_abudhabi_years 2024 2020 none).2.map (fun r => r.year_a) =
      (compare_dw_abudhabi_years 2024 2020 none).2.map (fun _ => (2020 : Int)) :=
  ⟨(compare_order_normalization 2024 2020 none (by decide) (by decide) (by decide)).1,
   (compare_order_normalization 2024 2020 none (by decide) (by decide) (by decide)).2.1⟩

/-- C6: for supported years and successfully resolved bounds, `compare`
returns a payload carrying the normalized years and exactly the eight
artifact references: classification thumbnails for both years, reference
thumbnails for both years, a change-mask thumbnail, classification tile
templates for both years, and a change-mask tile template. -/
theorem compare_valid_request_eight_artifacts (year_a year_b : Int)
    (roi_bounds : Option (List BVal)) (roi : EeRectangle)
    (ha : year_a ∈ YEARS) (hb : year_b ∈ YEARS)
    (hroi : (if py_truthy roi_bounds then get_aoi roi_bounds else get_aoi none) = .ok roi) :
    (compare_dw_abudhabi_years year_a year_b roi_bounds).2 =
      .ok ⟨min year_a year_b, max year_a year_b,
           RemoteCall.getThumbURL (applyVis (yearly_dw_label (min year_a year_b) roi) dw_vis) roi 768 "png",
           RemoteCall.getThumbURL (applyVis (yearly_dw_label (max year_a year_b) roi) dw_vis) roi 768 "png",
           RemoteCall.getThumbURL (yearly_s2_rgb (min year_a year_b) roi) roi 768 "png",
           RemoteCall.getThumbURL (yearly_s2_rgb (max year_a year_b) roi) roi 768 "png",
           RemoteCall.getThumbURL (applyVis (make_change_image (min year_a year_b) (max year_a year_b) roi) change_vis_params) roi 768 "png",
           get_tile_template (yearly_dw_label (min year_a year_b) roi) dw_vis (some roi),
           get_tile_template (yearly_dw_label (max year_a year_b) roi) dw_vis (some roi),
           get_tile_template (make_change_image (min year_a year_b) (max year_a year_b) roi) change_vis_params (some roi)⟩ ∧
    (compare_dw_abudhabi_years year_a year_b roi_bounds).2.map
      (fun r => (artifacts r).length) = .ok 8 := by
  rcases le_total year_a year_b with h | h
  · have hc := compare_ok_characterization year_a year_b roi_bounds roi ha hb h hroi
    rw [min_eq_left h, max_eq_right h]
    exact ⟨by rw [hc], by rw [hc]; rfl⟩
  · have hc := compare_ok_characterization year_b year_a roi_bounds roi hb ha h hroi
    rw [min_eq_right h, max_eq_left h, compare_comm_raw year_a year_b roi_bounds]
    exact ⟨by rw [hc], by rw [hc]; rfl⟩

theorem compare_valid_request_eight_artifacts_witness :
    (compare_dw_abudhabi_years 2024 2020 none).2.map
      (fun r => (artifacts r).length) = .ok 8 :=
  (compare_valid_request_eight_artifacts 2024 2020 none ⟨DEFAULT_RECT_BOUNDS, false⟩
    (by decide) (by decide) rfl).2

/-- A concrete configured language-model client used in witnesses. -/
def probe_client : LLMClient := some fun _ => ⟨[], some "hello"⟩

/-- C8: when the conversational request carries both structured `year_a` and
`year_b`, the dispatcher returns exactly the direct
`compare_dw_abudhabi_years` result (wrapped with the standard explanation
text), its behavior is independent of whether a language-model client is
configured, and its remote-call trace contains no language-model call. -/
theorem chat_direct_path_matches_compare (req : ChatRequest) (client : LLMClient)
    (ya yb : Int) (hya : req.year_a = some ya) (hyb : req.year_b = some yb) :
    chat req client =
      ((compare_dw_abudhabi_years ya yb (parse_roi_bounds req.location)).1,
       (compare_dw_abudhabi_years ya yb (parse_roi_bounds req.location)).2.map
         (fun data => ⟨some (compare_message data), some data⟩)) ∧
    chat req client = chat req none ∧
    contains_llm_call (chat req client).1 = false := by
  have h3 : chat req client =
      ((compare_dw_abudhabi_years ya yb (parse_roi_bounds req.location)).1,
       (compare_dw_abudhabi_years ya yb (parse_roi_bounds req.location)).2.map
         (fun data => ⟨some (compare_message data), some data⟩)) := by
    simp only [chat, hya, hyb]
  have h4 : chat req none =
      ((compare_dw_abudhabi_years ya yb (parse_roi_bounds req.location)).1,
       (compare_dw_abudhabi_years ya yb (parse_roi_bounds req.location)).2.map
         (fun data => ⟨some (compare_message data), some data⟩)) := by
    simp only [chat, hya, hyb]
  refine ⟨h3, h3.trans h4.symm, ?_⟩
  rw [h3]
  exact compare_trace_llm_free ya yb (parse_roi_bounds req.location)

theorem chat_direct_path_matches_compare_witness :
    chat ⟨some "run", none, some 2024, some 2020, none⟩ probe_client =
      chat ⟨some "run", none, some 2024, some 2020, none⟩ none ∧
    contains_llm_call (chat ⟨some "run", none, some 2024, some 2020, none⟩ probe_client).1 =
      false :=
  ⟨(chat_direct_path_matches_compare ⟨some "run", none, some 2024, some 2020, none⟩
      probe_client 2024 2020 rfl rfl).2.1,
   (chat_direct_path_matches_compare ⟨some "run", none, some 2024, some 2020, none⟩
      probe_client 2024 2020 rfl rfl).2.2⟩

/-- C9: the direct comparison path requires both year fields; a request
with exactly one of `year_a`/`year_b` present is routed to the
language-model path on `req.message or ""` (the supplied year field and the
location are ignored there), and when no language-model client is configured
it receives the fixed not-configured notice with no structured data and no
remote calls. -/
theorem chat_single_year_routes_to_llm_path (req : ChatRequest) (client : LLMClient)
    (h : req.year_a.isSome ≠ req.year_b.isSome) :
    chat req client = chat_llm_path (req.message.getD "") client ∧
    chat req none = ([], .ok ⟨some not_configured_message, none⟩) := by
  obtain ⟨m, l, oya, oyb, af⟩ := req
  cases oya <;> cases oyb
  · simp at h
  · exact ⟨rfl, rfl⟩
  · exact ⟨rfl, rfl⟩
  · simp at h

theorem chat_single_year_routes_to_llm_path_witness :
    chat ⟨some "compare 2020 and 2024", none, some 2020, none, none⟩ probe_client =
      chat_llm_path "compare 2020 and 2024" probe_client ∧
    chat ⟨some "compare 2020 and 2024", none, some 2020, none, none⟩ none =
      ([], .ok ⟨some not_configured_message, none⟩) :=
  chat_single_year_routes_to_llm_path
    ⟨some "compare 2020 and 2024", none, some 2020, none, none⟩ probe_client (by decide)
